import Mathlib

/-!
# RideItem: lazy ride loading and the time-in-zone cache

A shallow embedding of `src/RideItem.cpp` (GoldenCheetah).  A `RideItem` is one
entry of the ride list.  It loads its `RideFile` on demand (`ride`), and caches
the time spent in every power zone and heart-rate zone together with the
computed ride metrics (`computeMetrics`).  The cache is rebuilt only when the
power-zone schedule was modified after the cache was last built.

Conventions of the embedding:

* `double` values are rationals (`ℚ`), so the arithmetic is exact;
* C++ `int` values are `Int` (no arithmetic is done on them here, only
  comparisons, so no wrap-around can occur);
* the objects a `RideItem` only points to (`zones`, `hrZones`, the ride-file
  factory, the metric factory) are collected in an environment `Env`;
* `QDateTime::currentDateTime()` is an explicit argument `now`;
* operations that can dereference a null pointer, fail an `assert` or index a
  vector out of range return an `Outcome`, which records how the call ended and
  the state of the entry at that point.
-/

namespace GoldenCheetah

/-! ## Qt values -/

/-- A valid date-time value: Julian day number and milliseconds since midnight. -/
structure DateTimeVal where
  jd : Int
  msec : Nat
deriving DecidableEq, Repr

/-- A `QDateTime`: `none` is the null value produced by the default constructor. -/
abbrev QDateTime := Option DateTimeVal

/-- A `QDate`: `none` is the null date, `some jd` a Julian day number. -/
abbrev QDate := Option Int

/-- The value of `const QDateTime nilTime;` in `computeMetrics`. -/
def nilTime : QDateTime := none

/-- The method `QDateTime::date()`. -/
def QDateTime.date (t : QDateTime) : QDate := t.map (fun v => v.jd)

/-- The comparison `a >= b` on `QDateTime`: dates are compared first, then times; the null
value is below every valid value. -/
def QDateTime.ge (a b : QDateTime) : Bool :=
  match a, b with
  | _, none => true
  | none, some _ => false
  | some x, some y => decide (y.jd < x.jd) || (decide (x.jd = y.jd) && decide (y.msec ≤ x.msec))

/-- Font weights used by `setDirty`. -/
inductive FontWeight where
  | Normal
  | Black
deriving DecidableEq, Repr

/-- Text alignment of a column. -/
inductive Alignment where
  | AlignLeft
  | AlignRight
deriving DecidableEq, Repr

/-! ## Collaborators that are not part of `RideItem.cpp` -/

/-- One sample of a ride (`RideFilePoint`): the fields read by `computeMetrics`. -/
structure RideFilePoint where
  watts : ℚ
  hr : ℚ
deriving DecidableEq

/-- Modelled from the spec: the class `RideFile` (RideFile.h is not among the
sources).  A sample series has a constant recording interval and an ordered
sequence of samples; `setStartTime` stores the start time. -/
structure RideFile where
  recIntSecs : ℚ
  dataPoints : List RideFilePoint
  startTime : QDateTime
deriving DecidableEq

/-- The method `RideFile::setStartTime`. -/
def RideFile.setStartTime (r : RideFile) (t : QDateTime) : RideFile :=
  { r with startTime := t }

/-- Modelled from the spec: the class `Zones` (Zones.h is not among the
sources), as the interface `RideItem.cpp` uses: range resolution by date, zone
count of a range, classification of a value, and the modification time of the
schedule.  A negative result of `whichRange` means that no range is effective,
a negative result of `whichZone` means "no zone". -/
structure Zones where
  whichRange : QDate → Int
  numZones : Int → Int
  whichZone : Int → ℚ → Int
  modificationTime : QDateTime

/-- Modelled from the spec: the class `HrZones` (HrZones.h is not among the
sources), the heart-rate counterpart of `Zones`. -/
structure HrZones where
  whichRange : QDate → Int
  numZones : Int → Int
  whichZone : Int → ℚ → Int
  modificationTime : QDateTime

/-- The contract of the classifier: in a resolved range the zone index is below
the zone count of that range. -/
def Zones.WellFormed (z : Zones) : Prop :=
  ∀ (r : Int) (v : ℚ), 0 ≤ r → z.whichZone r v < z.numZones r

/-- The contract of the heart-rate classifier. -/
def HrZones.WellFormed (z : HrZones) : Prop :=
  ∀ (r : Int) (v : ℚ), 0 ≤ r → z.whichZone r v < z.numZones r

/-- The cached result of `RideMetric::computeMetrics`: metric name and value. -/
abbrev Metrics := List (String × ℚ)

/-- Calls a `RideItem` makes on its `MainWindow`. -/
inductive Notification where
  | rideDirty
  | rideClean
  | rideSelected
deriving DecidableEq, Repr

/-- Everything a `RideItem` refers to but does not own.

* `openRideFile file` is `RideFileFactory::instance().openRideFile(file, errors_)`:
  the parsed ride, if any, and the messages it adds to `errors_`;
* `metricCount`, `metricName` are the `RideMetricFactory`;
* `rideMetrics` is `RideMetric::computeMetrics`;
* `toString` is `QDateTime::toString(format)`. -/
structure Env where
  zones : Zones
  hrZones : HrZones
  openRideFile : String → Option RideFile × List String
  metricCount : Int
  metricName : Int → String
  rideMetrics : RideFile → Zones → HrZones → List String → Metrics
  toString : QDateTime → String → String

/-! ## The entry -/

/-- The state of a `RideItem`, with the three text columns, their fonts and
alignments of the underlying `QTreeWidgetItem`, and the calls made on `main`
(oldest first). -/
structure RideItem where
  type : Int
  ride_ : Option RideFile
  isdirty : Bool
  isedit : Bool
  path : String
  fileName : String
  dateTime : QDateTime
  notesFileName : String
  errors_ : List String
  time_in_zone : List ℚ
  time_in_hr_zone : List ℚ
  metrics : Metrics
  computeMetricsTime : QDateTime
  text0 : String
  text1 : String
  text2 : String
  font0 : FontWeight
  font1 : FontWeight
  font2 : FontWeight
  textAlignment1 : Alignment
  textAlignment2 : Alignment
  notified : List Notification
deriving DecidableEq

/-- How a call that may leave defined behaviour ended.  `ok v s`: it returned
`v` in state `s`.  `nullDeref s`: a null `RideFile` pointer was dereferenced.
`assertFailed s`: an `assert` failed.  `outOfRange s`: a vector was indexed
outside its bounds.  In the last three cases `s` is the state reached. -/
inductive Outcome (α : Type) where
  | ok (val : α) (s : RideItem)
  | nullDeref (s : RideItem)
  | assertFailed (s : RideItem)
  | outOfRange (s : RideItem)
deriving DecidableEq

/-- The state of the entry when the call ended. -/
def Outcome.state {α : Type} : Outcome α → RideItem
  | Outcome.ok _ s => s
  | Outcome.nullDeref s => s
  | Outcome.assertFailed s => s
  | Outcome.outOfRange s => s

namespace RideItem

/-- The constructor `RideItem::RideItem`. -/
def new (env : Env) (type : Int) (path fileName : String) (dateTime : QDateTime)
    (notesFileName : String) : RideItem :=
  { type := type
    ride_ := none
    isdirty := false
    isedit := false
    path := path
    fileName := fileName
    dateTime := dateTime
    notesFileName := notesFileName
    errors_ := []
    time_in_zone := []
    time_in_hr_zone := []
    metrics := []
    computeMetricsTime := nilTime
    text0 := env.toString dateTime "ddd"
    text1 := env.toString dateTime "MMM d, yyyy"
    text2 := env.toString dateTime "h:mm AP"
    font0 := FontWeight.Normal
    font1 := FontWeight.Normal
    font2 := FontWeight.Normal
    textAlignment1 := Alignment.AlignRight
    textAlignment2 := Alignment.AlignRight
    notified := [] }

/-- The method `RideItem::setDirty`. -/
def setDirty (s : RideItem) (val : Bool) : RideItem :=
  if s.isdirty = val then s
  else if val = true then
    { s with isdirty := val
             font0 := FontWeight.Black
             font1 := FontWeight.Black
             font2 := FontWeight.Black
             notified := s.notified ++ [Notification.rideDirty] }
  else
    { s with isdirty := val
             font0 := FontWeight.Normal
             font1 := FontWeight.Normal
             font2 := FontWeight.Normal
             notified := s.notified ++ [Notification.rideClean] }

/-- The method `RideItem::ride`: the loaded ride if there is one; otherwise the file
`path + "/" + fileName` is opened, and on success the ride is kept and the entry
marked clean.  The `connect` calls tie the slots `modified`, `saved` and
`reverted` to the loaded ride and change nothing in the entry. -/
def ride (env : Env) (s : RideItem) : Option RideFile × RideItem :=
  match s.ride_ with
  | some r => (some r, s)
  | none =>
    match env.openRideFile (s.path ++ "/" ++ s.fileName) with
    | (none, errs) => (none, { s with errors_ := s.errors_ ++ errs })
    | (some r, errs) =>
      (some r, setDirty { s with ride_ := some r, errors_ := s.errors_ ++ errs } false)

/-- The slot `RideItem::modified`. -/
def modified (s : RideItem) : RideItem := setDirty s true

/-- The slot `RideItem::saved`. -/
def saved (s : RideItem) : RideItem := setDirty s false

/-- The slot `RideItem::reverted`. -/
def reverted (s : RideItem) : RideItem := setDirty s false

/-- The method `RideItem::setFileName`. -/
def setFileName (s : RideItem) (path fileName : String) : RideItem :=
  { s with path := path, fileName := fileName }

/-- The method `RideItem::zoneRange`. -/
def zoneRange (env : Env) (s : RideItem) : Int :=
  env.zones.whichRange s.dateTime.date

/-- The method `RideItem::hrZoneRange`. -/
def hrZoneRange (env : Env) (s : RideItem) : Int :=
  env.hrZones.whichRange s.dateTime.date

/-- The method `RideItem::numZones`. -/
def numZones (env : Env) (s : RideItem) : Int :=
  let zone_range := zoneRange env s
  if zone_range ≥ 0 then env.zones.numZones zone_range else 0

/-- The method `RideItem::numHrZones`. -/
def numHrZones (env : Env) (s : RideItem) : Int :=
  let hr_zone_range := hrZoneRange env s
  if hr_zone_range ≥ 0 then env.hrZones.numZones hr_zone_range else 0

/-- The method `RideItem::freeMemory`. -/
def freeMemory (s : RideItem) : RideItem :=
  match s.ride_ with
  | some _ => { s with ride_ := none }
  | none => s

/-- The statement `v[i] += d` on a vector, for an index `i ≥ 0` given as a natural
number.  Inside the vector the element is increased; an index outside the
vector is outside its storage and leaves its elements as they are (for a
classifier obeying `Zones.WellFormed` this case does not occur, see
`zoneIndex_lt_length`). -/
def addAt : List ℚ → Nat → ℚ → List ℚ
  | [], _, _ => []
  | x :: xs, 0, d => (x + d) :: xs
  | x :: xs, i + 1, d => x :: addAt xs i d

/-- The call `clear()` followed, when the range is resolved, by `resize(num)`: the vector
has `num` zero entries, and none when no range is resolved. -/
def resetZones (range num : Int) : List ℚ :=
  if range ≥ 0 then List.replicate num.toNat 0 else []

/-- The power half of the loop body of `computeMetrics`. -/
def addWatts (env : Env) (zone_range num_zones : Int) (secs_delta : ℚ)
    (time_in_zone : List ℚ) (point : RideFilePoint) : List ℚ :=
  if point.watts ≥ 0 then
    if num_zones > 0 then
      let zone := env.zones.whichZone zone_range point.watts
      if zone ≥ 0 then addAt time_in_zone zone.toNat secs_delta else time_in_zone
    else time_in_zone
  else time_in_zone

/-- The heart-rate half of the loop body of `computeMetrics`. -/
def addHr (env : Env) (hr_zone_range num_hr_zones : Int) (secs_delta : ℚ)
    (time_in_hr_zone : List ℚ) (point : RideFilePoint) : List ℚ :=
  if point.hr ≥ 0 then
    if num_hr_zones > 0 then
      let hrZone := env.hrZones.whichZone hr_zone_range point.hr
      if hrZone ≥ 0 then addAt time_in_hr_zone hrZone.toNat secs_delta else time_in_hr_zone
    else time_in_hr_zone
  else time_in_hr_zone

/-- The list `allMetrics` built from the metric factory. -/
def allMetrics (env : Env) : List String :=
  (List.range env.metricCount.toNat).map (fun i => env.metricName (i : Int))

/-- The staleness test at the head of `computeMetrics`: the cache has been built
and not before the last modification of the power-zone schedule. -/
def cacheIsFresh (env : Env) (s : RideItem) : Bool :=
  (s.computeMetricsTime != nilTime) &&
    QDateTime.ge s.computeMetricsTime env.zones.modificationTime

/-- The method `RideItem::computeMetrics`, called at time `now`.  After the first `ride()`
has succeeded the ride is loaded, so the later `ride()` calls of the body return
the same ride and do not change the entry. -/
def computeMetrics (env : Env) (now : DateTimeVal) (s : RideItem) : RideItem :=
  if cacheIsFresh env s then s
  else
    match ride env s with
    | (none, s1) => s1
    | (some r, s1) =>
      let s2 := { s1 with computeMetricsTime := some now }
      let zone_range := zoneRange env s2
      let num_zones := numZones env s2
      let num_zones := if zone_range ≥ 0 then env.zones.numZones zone_range else num_zones
      let tiz := resetZones zone_range num_zones
      let hr_zone_range := hrZoneRange env s2
      let num_hr_zones := numHrZones env s2
      let num_hr_zones :=
        if hr_zone_range ≥ 0 then env.hrZones.numZones hr_zone_range else num_hr_zones
      let tihz := resetZones hr_zone_range num_hr_zones
      let secs_delta := r.recIntSecs
      let acc := r.dataPoints.foldl
        (fun (acc : List ℚ × List ℚ) point =>
          (addWatts env zone_range num_zones secs_delta acc.1 point,
           addHr env hr_zone_range num_hr_zones secs_delta acc.2 point))
        (tiz, tihz)
      { s2 with time_in_zone := acc.1
                time_in_hr_zone := acc.2
                metrics := env.rideMetrics r env.zones env.hrZones (allMetrics env) }

/-- The method `RideItem::timeInZone`. -/
def timeInZone (env : Env) (now : DateTimeVal) (s : RideItem) (zone : Int) : Outcome ℚ :=
  let s1 := computeMetrics env now s
  match ride env s1 with
  | (none, s2) => Outcome.ok 0 s2
  | (some _, s2) =>
    if zone < numZones env s2 then
      if 0 ≤ zone then
        match s2.time_in_zone[zone.toNat]? with
        | some v => Outcome.ok v s2
        | none => Outcome.outOfRange s2
      else Outcome.outOfRange s2
    else Outcome.assertFailed s2

/-- The method `RideItem::timeInHrZone`. -/
def timeInHrZone (env : Env) (now : DateTimeVal) (s : RideItem) (zone : Int) : Outcome ℚ :=
  let s1 := computeMetrics env now s
  match ride env s1 with
  | (none, s2) => Outcome.ok 0 s2
  | (some _, s2) =>
    if zone < numHrZones env s2 then
      if 0 ≤ zone then
        match s2.time_in_hr_zone[zone.toNat]? with
        | some v => Outcome.ok v s2
        | none => Outcome.outOfRange s2
      else Outcome.outOfRange s2
    else Outcome.assertFailed s2

/-- The method `RideItem::setStartTime`: the date-time and the three text columns are set
first, then the result of `ride()` is dereferenced to store the new start time. -/
def setStartTime (env : Env) (s : RideItem) (newDateTime : QDateTime) : Outcome Unit :=
  let s1 := { s with dateTime := newDateTime
                     text0 := env.toString newDateTime "ddd"
                     text1 := env.toString newDateTime "MMM d, yyyy"
                     text2 := env.toString newDateTime "h:mm AP" }
  match ride env s1 with
  | (none, s2) => Outcome.nullDeref s2
  | (some r, s2) =>
    Outcome.ok () { s2 with ride_ := some (r.setStartTime newDateTime)
                            notified := s2.notified ++ [Notification.rideSelected] }

/-! ### Notions used to state the properties -/

/-- The cache is stale: the timestamp is unset, or it is earlier than the
modification time of the power-zone schedule. -/
def Stale (env : Env) (s : RideItem) : Prop :=
  s.computeMetricsTime = nilTime ∨
    QDateTime.ge s.computeMetricsTime env.zones.modificationTime = false

/-- The ride is not loaded and the file of the entry cannot be opened. -/
def LoadFails (env : Env) (s : RideItem) : Prop :=
  s.ride_ = none ∧ (env.openRideFile (s.path ++ "/" ++ s.fileName)).1 = none

/-- A classification result `z` is a valid zone of a range with `n` zones. -/
def validZone (n z : Int) : Bool := decide (0 ≤ z) && decide (z < n)

/-- The loop body of `computeMetrics` for one reading `x` of either kind. -/
def addValue (whichZone : Int → ℚ → Int) (range num : Int) (secs_delta : ℚ)
    (v : List ℚ) (x : ℚ) : List ℚ :=
  if x ≥ 0 then
    if num > 0 then
      let zone := whichZone range x
      if zone ≥ 0 then addAt v zone.toNat secs_delta else v
    else v
  else v

/-- The power accumulator a recomputation builds for a ride on a given date. -/
def powerTimes (env : Env) (dateTime : QDateTime) (r : RideFile) : List ℚ :=
  let zone_range := env.zones.whichRange dateTime.date
  let num_zones := if zone_range ≥ 0 then env.zones.numZones zone_range else 0
  r.dataPoints.foldl (addWatts env zone_range num_zones r.recIntSecs)
    (resetZones zone_range num_zones)

/-- The heart-rate accumulator a recomputation builds for a ride on a given date. -/
def hrTimes (env : Env) (dateTime : QDateTime) (r : RideFile) : List ℚ :=
  let hr_zone_range := env.hrZones.whichRange dateTime.date
  let num_hr_zones := if hr_zone_range ≥ 0 then env.hrZones.numZones hr_zone_range else 0
  r.dataPoints.foldl (addHr env hr_zone_range num_hr_zones r.recIntSecs)
    (resetZones hr_zone_range num_hr_zones)

end RideItem

/-! ## Zone schedules given by thresholds -/

/-- Modelled from the spec: one range of a zone schedule (the classes behind
`Zones` and `HrZones` are not among the sources).  It is effective from
`effectiveDate` (a Julian day) and its thresholds cut the values into
`thresholds.length + 1` zones. -/
structure ZoneRange where
  effectiveDate : Int
  thresholds : List ℚ

/-- Modelled from the spec: the zone of a value is the number of thresholds that
are at most the value, and "no zone" (`-1`) for a negative value. -/
def ZoneRange.classify (r : ZoneRange) (v : ℚ) : Int :=
  if v < 0 then -1 else ((r.thresholds.countP (fun t => decide (t ≤ v)) : Nat) : Int)

/-- Scan of the ranges from index `i` on: the index of the last range whose
effective date is at most `jd`, and `best` if there is none. -/
def resolveFrom : List ZoneRange → Int → Int → Int → Int
  | [], _, _, best => best
  | r :: rs, jd, i, best => resolveFrom rs jd (i + 1) (if r.effectiveDate ≤ jd then i else best)

/-- Modelled from the spec: `resolveRange(date)` is the index of the latest range
whose effective date is at most the date, and `-1` ("no range") if none
qualifies or the date is null. -/
def resolveRange (ranges : List ZoneRange) (d : QDate) : Int :=
  match d with
  | none => -1
  | some jd => resolveFrom ranges jd 0 (-1)

/-- Modelled from the spec: `zoneCount(rangeIndex)`, zero outside the schedule. -/
def zoneCount (ranges : List ZoneRange) (r : Int) : Int :=
  if 0 ≤ r then
    match ranges[r.toNat]? with
    | some rg => ((rg.thresholds.length + 1 : Nat) : Int)
    | none => 0
  else 0

/-- Modelled from the spec: `classify(rangeIndex, value)`, "no zone" outside the
schedule. -/
def classifyIn (ranges : List ZoneRange) (r : Int) (v : ℚ) : Int :=
  if 0 ≤ r then
    match ranges[r.toNat]? with
    | some rg => rg.classify v
    | none => -1
  else -1

/-- The power-zone schedule with the given ranges and modification time. -/
def Zones.ofRanges (ranges : List ZoneRange) (modificationTime : QDateTime) : Zones :=
  { whichRange := resolveRange ranges
    numZones := zoneCount ranges
    whichZone := classifyIn ranges
    modificationTime := modificationTime }

/-- The heart-rate schedule with the given ranges and modification time. -/
def HrZones.ofRanges (ranges : List ZoneRange) (modificationTime : QDateTime) : HrZones :=
  { whichRange := resolveRange ranges
    numZones := zoneCount ranges
    whichZone := classifyIn ranges
    modificationTime := modificationTime }

/-! ## A small world used to run the code -/

namespace Example

/-- Four samples recorded every second, the last one without valid readings. -/
def fourSamples : RideFile :=
  { recIntSecs := 1
    dataPoints := [⟨50, 110⟩, ⟨150, 130⟩, ⟨250, 170⟩, ⟨-1, -1⟩]
    startTime := some ⟨50, 0⟩ }

/-- Power zones: three zones from day 0 on, five zones from day 100 on; the
schedule was last modified on day 10. -/
def powerZones : Zones :=
  Zones.ofRanges [⟨0, [100, 200]⟩, ⟨100, [100, 200, 300, 400]⟩] (some ⟨10, 0⟩)

/-- Heart-rate zones: three zones from day 0 on, last modified on day 10. -/
def heartZones : HrZones :=
  HrZones.ofRanges [⟨0, [120, 150]⟩] (some ⟨10, 0⟩)

/-- Heart-rate zones with other thresholds, modified on day 300. -/
def heartZonesLater : HrZones :=
  HrZones.ofRanges [⟨0, [100, 140, 160]⟩] (some ⟨300, 0⟩)

/-- Power zones with other thresholds, modified on day 250. -/
def powerZonesLater : Zones :=
  Zones.ofRanges [⟨0, [40, 60, 300]⟩] (some ⟨250, 0⟩)

/-- A loader that knows one file, `rides/a.csv`, and reports an error for every
other file. -/
def loader (file : String) : Option RideFile × List String :=
  if file = "rides/a.csv" then (some fourSamples, []) else (none, ["cannot open file"])

/-- A metric catalogue with the single metric `time_riding`. -/
def world : Env :=
  { zones := powerZones
    hrZones := heartZones
    openRideFile := loader
    metricCount := 1
    metricName := fun _ => "time_riding"
    rideMetrics := fun r _ _ names =>
      names.map (fun n => (n, r.recIntSecs * (r.dataPoints.length : ℚ)))
    toString := fun _ format => format }

/-- The world after the power-zone schedule was edited on day 250. -/
def worldPowerEdited : Env := { world with zones := powerZonesLater }

/-- The world after the heart-rate schedule was edited on day 300. -/
def worldHrEdited : Env := { world with hrZones := heartZonesLater }

/-- A fresh entry for the readable file, recorded on day 50. -/
def entry : RideItem := RideItem.new world 0 "rides" "a.csv" (some ⟨50, 0⟩) "a.notes"

/-- A fresh entry for a file that cannot be read. -/
def brokenEntry : RideItem := RideItem.new world 0 "rides" "b.csv" (some ⟨50, 0⟩) "b.notes"

/-- The time of the first computation: day 200. -/
def day200 : DateTimeVal := ⟨200, 0⟩

/-- A later time: day 400. -/
def day400 : DateTimeVal := ⟨400, 0⟩

/-- The readable entry after its metrics were computed on day 200. -/
def computedEntry : RideItem := RideItem.computeMetrics world day200 entry

/-- The computed entry after its ride was freed. -/
def unloadedEntry : RideItem := RideItem.freeMemory computedEntry

/-- A start time on day 150, where the five-zone range is effective. -/
def day150 : QDateTime := some ⟨150, 0⟩

/-- A fresh entry for the readable file dated day -5, before any range of either
schedule is effective. -/
def earlyEntry : RideItem := RideItem.new world 0 "rides" "a.csv" (some ⟨-5, 0⟩) "a.notes"

/-- The computed entry after its start time was moved to day 150. -/
def movedEntry : RideItem := (RideItem.setStartTime world computedEntry day150).state

end Example

end GoldenCheetah

namespace GoldenCheetah

namespace RideItem

/-! ## Facts about `setDirty` and `ride` -/

theorem setDirty_fields (s : RideItem) (val : Bool) :
    (setDirty s val).ride_ = s.ride_ ∧ (setDirty s val).path = s.path ∧
    (setDirty s val).fileName = s.fileName ∧ (setDirty s val).dateTime = s.dateTime ∧
    (setDirty s val).errors_ = s.errors_ ∧
    (setDirty s val).computeMetricsTime = s.computeMetricsTime ∧
    (setDirty s val).time_in_zone = s.time_in_zone ∧
    (setDirty s val).time_in_hr_zone = s.time_in_hr_zone ∧
    (setDirty s val).metrics = s.metrics := by
  unfold setDirty
  split
  · simp
  · split <;> simp

/-- A loaded ride is returned as it is and the entry does not change. -/
theorem ride_loaded (env : Env) (s : RideItem) (r : RideFile) (h : s.ride_ = some r) :
    ride env s = (some r, s) := by
  unfold ride
  rw [h]

/-- When nothing is loaded and the file cannot be opened, `ride` returns null and
only the error list grows. -/
theorem ride_load_fails (env : Env) (s : RideItem) (hnone : s.ride_ = none)
    (hfail : (env.openRideFile (s.path ++ "/" ++ s.fileName)).1 = none) :
    ride env s = (none, { s with errors_ :=
      s.errors_ ++ (env.openRideFile (s.path ++ "/" ++ s.fileName)).2 }) := by
  unfold ride
  rw [hnone]
  rcases hres : env.openRideFile (s.path ++ "/" ++ s.fileName) with ⟨o, errs⟩
  rw [hres] at hfail
  simp only at hfail
  subst hfail
  rfl

/-- The fields `ride` never touches. -/
theorem ride_fields (env : Env) (s : RideItem) :
    (ride env s).2.path = s.path ∧ (ride env s).2.fileName = s.fileName ∧
    (ride env s).2.dateTime = s.dateTime ∧
    (ride env s).2.computeMetricsTime = s.computeMetricsTime ∧
    (ride env s).2.time_in_zone = s.time_in_zone ∧
    (ride env s).2.time_in_hr_zone = s.time_in_hr_zone ∧
    (ride env s).2.metrics = s.metrics := by
  unfold ride
  rcases hr : s.ride_ with _ | r
  · rcases hres : env.openRideFile (s.path ++ "/" ++ s.fileName) with ⟨o, errs⟩
    rcases o with _ | r
    · simp
    · simp only
      have h := setDirty_fields { s with ride_ := some r, errors_ := s.errors_ ++ errs } false
      obtain ⟨-, h2, h3, h4, -, h6, h7, h8, h9⟩ := h
      exact ⟨h2, h3, h4, h6, h7, h8, h9⟩
  · simp

/-- After a successful `ride` the ride is held by the entry. -/
theorem ride_some_loaded (env : Env) (s s1 : RideItem) (r : RideFile)
    (h : ride env s = (some r, s1)) : s1.ride_ = some r := by
  unfold ride at h
  rcases hr : s.ride_ with _ | r0
  · rw [hr] at h
    rcases hres : env.openRideFile (s.path ++ "/" ++ s.fileName) with ⟨o, errs⟩
    rw [hres] at h
    rcases o with _ | r1
    · simp at h
    · simp only [Prod.mk.injEq, Option.some.injEq] at h
      obtain ⟨h1, h2⟩ := h
      subst h1
      rw [← h2]
      exact (setDirty_fields _ false).1
  · rw [hr] at h
    simp only [Prod.mk.injEq, Option.some.injEq] at h
    obtain ⟨h1, h2⟩ := h
    subst h1
    subst h2
    exact hr

/-! ## The staleness test -/

/-- Claim C1. Staleness test: when the last-computed timestamp is set and is at least
the modification time of the power-zone schedule, `computeMetrics` returns the
entry exactly as it was: the ride is not loaded and `time_in_zone`,
`time_in_hr_zone`, `metrics` and `computeMetricsTime` keep their values. -/
theorem computeMetrics_fresh_unchanged (env : Env) (now : DateTimeVal) (s : RideItem)
    (hset : s.computeMetricsTime ≠ nilTime)
    (hge : QDateTime.ge s.computeMetricsTime env.zones.modificationTime = true) :
    computeMetrics env now s = s := by
  have hfresh : cacheIsFresh env s = true := by
    unfold cacheIsFresh
    simp [hset, hge]
  unfold computeMetrics
  rw [if_pos hfresh]

theorem computeMetrics_fresh_unchanged_witness :
    Example.unloadedEntry.computeMetricsTime ≠ nilTime ∧
    QDateTime.ge Example.unloadedEntry.computeMetricsTime
      Example.world.zones.modificationTime = true ∧
    computeMetrics Example.world Example.day400 Example.unloadedEntry
      = Example.unloadedEntry :=
  ⟨by decide, by decide,
   computeMetrics_fresh_unchanged Example.world Example.day400
     Example.unloadedEntry (by decide) (by decide)⟩

/-! ## Load failure -/

/-- A null result of `ride` means that nothing was loaded and the file could not
be opened. -/
theorem ride_eq_none (env : Env) (s : RideItem) (h : (ride env s).1 = none) :
    LoadFails env s := by
  unfold ride at h
  rcases hr : s.ride_ with _ | r
  · rw [hr] at h
    refine ⟨hr, ?_⟩
    rcases hres : env.openRideFile (s.path ++ "/" ++ s.fileName) with ⟨o, errs⟩
    rw [hres] at h
    rcases o with _ | r1
    · rfl
    · simp at h
  · rw [hr] at h
    simp at h

/-- On a failed load `computeMetrics` keeps the timestamp and the three caches. -/
theorem computeMetrics_loadFails_fields (env : Env) (now : DateTimeVal) (s : RideItem)
    (hfail : LoadFails env s) :
    (computeMetrics env now s).computeMetricsTime = s.computeMetricsTime ∧
    (computeMetrics env now s).time_in_zone = s.time_in_zone ∧
    (computeMetrics env now s).time_in_hr_zone = s.time_in_hr_zone ∧
    (computeMetrics env now s).metrics = s.metrics := by
  unfold computeMetrics
  by_cases hfresh : cacheIsFresh env s = true
  · rw [if_pos hfresh]
    exact ⟨rfl, rfl, rfl, rfl⟩
  · rw [if_neg hfresh, ride_load_fails env s hfail.1 hfail.2]
    exact ⟨rfl, rfl, rfl, rfl⟩

/-- Claim C3. Load-failure atomicity: when the ride is not loaded and the loader fails,
`computeMetrics` leaves `computeMetricsTime`, `time_in_zone`, `time_in_hr_zone`
and `metrics` as they were; for a freshly constructed entry the timestamp stays
unset and both accumulator vectors stay empty. -/
theorem computeMetrics_load_failure (env : Env) (now : DateTimeVal) (s : RideItem)
    (hfail : LoadFails env s) :
    ((computeMetrics env now s).computeMetricsTime = s.computeMetricsTime ∧
     (computeMetrics env now s).time_in_zone = s.time_in_zone ∧
     (computeMetrics env now s).time_in_hr_zone = s.time_in_hr_zone ∧
     (computeMetrics env now s).metrics = s.metrics) ∧
    (∀ (type : Int) (path fileName : String) (dateTime : QDateTime) (notes : String),
      s = RideItem.new env type path fileName dateTime notes →
      (computeMetrics env now s).computeMetricsTime = nilTime ∧
      (computeMetrics env now s).time_in_zone = [] ∧
      (computeMetrics env now s).time_in_hr_zone = []) := by
  have key := computeMetrics_loadFails_fields env now s hfail
  refine ⟨key, ?_⟩
  intro type path fileName dateTime notes hs
  obtain ⟨h1, h2, h3, -⟩ := key
  rw [h1, h2, h3, hs]
  exact ⟨rfl, rfl, rfl⟩

theorem computeMetrics_load_failure_witness :
    LoadFails Example.world Example.brokenEntry ∧
    (computeMetrics Example.world Example.day200 Example.brokenEntry).computeMetricsTime
      = nilTime ∧
    (computeMetrics Example.world Example.day200 Example.brokenEntry).time_in_zone = [] ∧
    (computeMetrics Example.world Example.day200 Example.brokenEntry).time_in_hr_zone = [] :=
  ⟨⟨by decide, by decide⟩,
   (computeMetrics_load_failure Example.world Example.day200 Example.brokenEntry
     ⟨by decide, by decide⟩).2 0 "rides" "b.csv" (some ⟨50, 0⟩) "b.notes" rfl⟩

/-- When the load fails, `ride` still fails after `computeMetrics`. -/
theorem ride_after_computeMetrics_fails (env : Env) (now : DateTimeVal) (s : RideItem)
    (hfail : LoadFails env s) :
    (ride env (computeMetrics env now s)).1 = none := by
  have hstill : LoadFails env (computeMetrics env now s) := by
    unfold computeMetrics
    by_cases hfresh : cacheIsFresh env s = true
    · rw [if_pos hfresh]
      exact hfail
    · rw [if_neg hfresh, ride_load_fails env s hfail.1 hfail.2]
      exact ⟨hfail.1, hfail.2⟩
  rw [ride_load_fails env _ hstill.1 hstill.2]

/-- Claim C4. Accessors degrade to zero on load failure: when the ride cannot be
loaded, `timeInZone(zone)` and `timeInHrZone(zone)` return `0.0` for every
integer `zone`, negative ones and ones beyond the zone count included; the
call ends at the early return, so neither the assertion nor the vector access
decides the outcome. -/
theorem timeInZone_load_failure (env : Env) (now : DateTimeVal) (s : RideItem) (zone : Int)
    (hfail : LoadFails env s) :
    timeInZone env now s zone
        = Outcome.ok 0 (ride env (computeMetrics env now s)).2 ∧
    timeInHrZone env now s zone
        = Outcome.ok 0 (ride env (computeMetrics env now s)).2 := by
  have h := ride_after_computeMetrics_fails env now s hfail
  rcases hr : ride env (computeMetrics env now s) with ⟨o, s2⟩
  rw [hr] at h
  simp only at h
  subst h
  simp only [timeInZone, timeInHrZone, hr, and_self]

theorem timeInZone_load_failure_witness :
    LoadFails Example.world Example.brokenEntry ∧
    timeInZone Example.world Example.day200 Example.brokenEntry 7
        = Outcome.ok 0 (ride Example.world
            (computeMetrics Example.world Example.day200 Example.brokenEntry)).2 ∧
    timeInHrZone Example.world Example.day200 Example.brokenEntry 7
        = Outcome.ok 0 (ride Example.world
            (computeMetrics Example.world Example.day200 Example.brokenEntry)).2 :=
  ⟨⟨by decide, by decide⟩,
   timeInZone_load_failure Example.world Example.day200 Example.brokenEntry 7
     ⟨by decide, by decide⟩⟩

/-! ## The accumulation loop -/

theorem addAt_length (v : List ℚ) (i : Nat) (d : ℚ) : (addAt v i d).length = v.length := by
  induction v generalizing i with
  | nil => rfl
  | cons x xs ih =>
    cases i with
    | zero => rfl
    | succ i => simp [addAt, ih]

theorem addAt_sum (v : List ℚ) (i : Nat) (d : ℚ) :
    (addAt v i d).sum = v.sum + (if i < v.length then d else 0) := by
  induction v generalizing i with
  | nil => simp [addAt]
  | cons x xs ih =>
    cases i with
    | zero => simp [addAt]; ring
    | succ i => simp [addAt, ih]; ring

/-- A loop over pairs whose components do not interact is a pair of loops. -/
theorem foldl_pair {α β γ : Type} (f : α → γ → α) (g : β → γ → β) (l : List γ) (a : α) (b : β) :
    l.foldl (fun (acc : α × β) p => (f acc.1 p, g acc.2 p)) (a, b)
      = (l.foldl f a, l.foldl g b) := by
  induction l generalizing a b with
  | nil => rfl
  | cons p ps ih => simp only [List.foldl_cons, ih]

theorem addWatts_eq (env : Env) (zr nz : Int) (d : ℚ) (v : List ℚ) (p : RideFilePoint) :
    addWatts env zr nz d v p = addValue env.zones.whichZone zr nz d v p.watts := rfl

theorem addHr_eq (env : Env) (zr nz : Int) (d : ℚ) (v : List ℚ) (p : RideFilePoint) :
    addHr env zr nz d v p = addValue env.hrZones.whichZone zr nz d v p.hr := rfl

theorem addValue_length (wz : Int → ℚ → Int) (zr nz : Int) (d : ℚ) (v : List ℚ) (x : ℚ) :
    (addValue wz zr nz d v x).length = v.length := by
  unfold addValue
  split
  · split
    · simp only
      split
      · exact addAt_length _ _ _
      · rfl
    · rfl
  · rfl

/-- One step of the loop seen from the sum of the vector. -/
theorem addValue_sum (wz : Int → ℚ → Int) (zr nz : Int) (d : ℚ) (v : List ℚ) (x : ℚ) :
    (addValue wz zr nz d v x).sum = v.sum +
      (if (decide (0 ≤ x) && decide (0 < nz) && decide (0 ≤ wz zr x) &&
            decide ((wz zr x).toNat < v.length)) = true then d else 0) := by
  unfold addValue
  by_cases hx : 0 ≤ x
  · by_cases hn : 0 < nz
    · by_cases hz : 0 ≤ wz zr x
      · simp [hx, hn, hz, addAt_sum]
      · simp [hx, hn, hz]
    · simp [hx, hn]
  · simp [hx]

theorem foldl_addValue_length (wz : Int → ℚ → Int) (zr nz : Int) (d : ℚ)
    (val : RideFilePoint → ℚ) (pts : List RideFilePoint) (v : List ℚ) :
    (pts.foldl (fun v p => addValue wz zr nz d v (val p)) v).length = v.length := by
  induction pts generalizing v with
  | nil => rfl
  | cons p ps ih => rw [List.foldl_cons, ih, addValue_length]

/-- The whole loop seen from the sum of the vector. -/
theorem foldl_addValue_sum (wz : Int → ℚ → Int) (zr nz : Int) (d : ℚ)
    (val : RideFilePoint → ℚ) (pts : List RideFilePoint) (v : List ℚ) :
    (pts.foldl (fun v p => addValue wz zr nz d v (val p)) v).sum =
      v.sum + d * ((pts.countP (fun p =>
        decide (0 ≤ val p) && decide (0 < nz) && decide (0 ≤ wz zr (val p)) &&
          decide ((wz zr (val p)).toNat < v.length)) : Nat) : ℚ) := by
  induction pts generalizing v with
  | nil => simp
  | cons p ps ih =>
    rw [List.foldl_cons, ih, addValue_sum, addValue_length, List.countP_cons]
    split <;> simp
    ring

theorem resetZones_length (range num : Int) :
    (resetZones range num).length = if range ≥ 0 then num.toNat else 0 := by
  unfold resetZones
  split <;> simp

theorem resetZones_sum (range num : Int) : (resetZones range num).sum = 0 := by
  unfold resetZones
  split <;> simp

theorem stale_iff (env : Env) (s : RideItem) : Stale env s ↔ cacheIsFresh env s = false := by
  unfold Stale cacheIsFresh nilTime
  rcases s.computeMetricsTime with _ | t
  · simp
  · simp

/-- The recomputing path of `computeMetrics`: the entry returned by `ride` with a
new timestamp, the two accumulators built from scratch and the new metrics. -/
theorem computeMetrics_stale (env : Env) (now : DateTimeVal) (s s1 : RideItem) (r : RideFile)
    (hstale : cacheIsFresh env s = false) (hride : ride env s = (some r, s1)) :
    computeMetrics env now s =
      { s1 with computeMetricsTime := some now
                time_in_zone := powerTimes env s.dateTime r
                time_in_hr_zone := hrTimes env s.dateTime r
                metrics := env.rideMetrics r env.zones env.hrZones (allMetrics env) } := by
  have hdt : s1.dateTime = s.dateTime := by
    have h := (ride_fields env s).2.2.1
    rw [hride] at h
    exact h
  unfold computeMetrics
  rw [hstale, hride]
  simp only [Bool.false_eq_true, if_false, foldl_pair, zoneRange, hrZoneRange, numZones,
    numHrZones, hdt, ite_self, powerTimes, hrTimes]
  have e1 : (if env.zones.whichRange s.dateTime.date ≥ 0
        then env.zones.numZones (env.zones.whichRange s.dateTime.date)
        else if env.zones.whichRange s.dateTime.date ≥ 0
          then env.zones.numZones (env.zones.whichRange s.dateTime.date) else 0)
      = (if env.zones.whichRange s.dateTime.date ≥ 0
        then env.zones.numZones (env.zones.whichRange s.dateTime.date) else 0) := by
    split <;> rfl
  have e2 : (if env.hrZones.whichRange s.dateTime.date ≥ 0
        then env.hrZones.numZones (env.hrZones.whichRange s.dateTime.date)
        else if env.hrZones.whichRange s.dateTime.date ≥ 0
          then env.hrZones.numZones (env.hrZones.whichRange s.dateTime.date) else 0)
      = (if env.hrZones.whichRange s.dateTime.date ≥ 0
        then env.hrZones.numZones (env.hrZones.whichRange s.dateTime.date) else 0) := by
    split <;> rfl
  rw [e1, e2]

/-- The fields of the result of a recomputation. -/
theorem computeMetrics_stale_fields (env : Env) (now : DateTimeVal) (s : RideItem)
    (r : RideFile) (hstale : cacheIsFresh env s = false) (hload : (ride env s).1 = some r) :
    (computeMetrics env now s).computeMetricsTime = some now ∧
    (computeMetrics env now s).time_in_zone = powerTimes env s.dateTime r ∧
    (computeMetrics env now s).time_in_hr_zone = hrTimes env s.dateTime r ∧
    (computeMetrics env now s).metrics
      = env.rideMetrics r env.zones env.hrZones (allMetrics env) ∧
    (computeMetrics env now s).ride_ = some r ∧
    (computeMetrics env now s).dateTime = s.dateTime := by
  rcases hr : ride env s with ⟨o, s1⟩
  rw [hr] at hload
  simp only at hload
  subst hload
  rw [computeMetrics_stale env now s s1 r hstale hr]
  refine ⟨rfl, rfl, rfl, rfl, ?_, ?_⟩
  · exact ride_some_loaded env s s1 r hr
  · have h := (ride_fields env s).2.2.1
    rw [hr] at h
    exact h

theorem powerTimes_eq (env : Env) (dt : QDateTime) (r : RideFile) :
    powerTimes env dt r =
      r.dataPoints.foldl
        (fun v p => addValue env.zones.whichZone (env.zones.whichRange dt.date)
          (if env.zones.whichRange dt.date ≥ 0
            then env.zones.numZones (env.zones.whichRange dt.date) else 0)
          r.recIntSecs v p.watts)
        (resetZones (env.zones.whichRange dt.date)
          (if env.zones.whichRange dt.date ≥ 0
            then env.zones.numZones (env.zones.whichRange dt.date) else 0)) := rfl

theorem hrTimes_eq (env : Env) (dt : QDateTime) (r : RideFile) :
    hrTimes env dt r =
      r.dataPoints.foldl
        (fun v p => addValue env.hrZones.whichZone (env.hrZones.whichRange dt.date)
          (if env.hrZones.whichRange dt.date ≥ 0
            then env.hrZones.numZones (env.hrZones.whichRange dt.date) else 0)
          r.recIntSecs v p.hr)
        (resetZones (env.hrZones.whichRange dt.date)
          (if env.hrZones.whichRange dt.date ≥ 0
            then env.hrZones.numZones (env.hrZones.whichRange dt.date) else 0)) := rfl

theorem powerTimes_length (env : Env) (dt : QDateTime) (r : RideFile) :
    (powerTimes env dt r).length =
      if env.zones.whichRange dt.date ≥ 0
        then (env.zones.numZones (env.zones.whichRange dt.date)).toNat else 0 := by
  rw [powerTimes_eq, foldl_addValue_length, resetZones_length]
  split <;> simp_all

theorem hrTimes_length (env : Env) (dt : QDateTime) (r : RideFile) :
    (hrTimes env dt r).length =
      if env.hrZones.whichRange dt.date ≥ 0
        then (env.hrZones.numZones (env.hrZones.whichRange dt.date)).toNat else 0 := by
  rw [hrTimes_eq, foldl_addValue_length, resetZones_length]
  split <;> simp_all

/-- For a classifier obeying its contract every index used by the loop lies
inside the vector that was sized for the range. -/
theorem zoneIndex_lt_length (z : Zones) (hz : z.WellFormed) (r : Int) (x : ℚ) (hr : 0 ≤ r)
    (h0 : 0 ≤ z.whichZone r x) :
    (z.whichZone r x).toNat < (resetZones r (z.numZones r)).length := by
  have h := hz r x hr
  rw [resetZones_length, if_pos hr]
  omega

/-- The heart-rate counterpart of `zoneIndex_lt_length`. -/
theorem hrZoneIndex_lt_length (z : HrZones) (hz : z.WellFormed) (r : Int) (x : ℚ) (hr : 0 ≤ r)
    (h0 : 0 ≤ z.whichZone r x) :
    (z.whichZone r x).toNat < (resetZones r (z.numZones r)).length := by
  have h := hz r x hr
  rw [resetZones_length, if_pos hr]
  omega

/-! ## Time in zone -/

/-- Claim C7. Sum law: for a stale entry whose ride loads, after `computeMetrics` the
sum of `time_in_zone` is `recIntSecs` times the number of samples with
`watts >= 0` whose classification in the power range effective on the date of
the entry (`env.zones.whichRange` of that date) is a valid zone of that range,
and the sum of `time_in_hr_zone` is `recIntSecs` times the number of samples
with `hr >= 0` whose classification in the heart-rate range effective on that
date (`env.hrZones.whichRange` of that date) is a valid zone of that range.
The zone count of a range that does not resolve is 0; in that case the vector
is empty and its sum is 0.  Both laws are stated against the schedules
themselves, not against the accessors of the entry. -/
theorem computeMetrics_sum_law (env : Env) (now : DateTimeVal) (s : RideItem) (r : RideFile)
    (hstale : Stale env s) (hload : (ride env s).1 = some r) :
    (computeMetrics env now s).time_in_zone.sum =
      r.recIntSecs * ((r.dataPoints.countP (fun p => decide (0 ≤ p.watts) &&
        validZone
          (if env.zones.whichRange s.dateTime.date ≥ 0
            then env.zones.numZones (env.zones.whichRange s.dateTime.date) else 0)
          (env.zones.whichZone (env.zones.whichRange s.dateTime.date) p.watts)) : Nat) : ℚ) ∧
    (computeMetrics env now s).time_in_hr_zone.sum =
      r.recIntSecs * ((r.dataPoints.countP (fun p => decide (0 ≤ p.hr) &&
        validZone
          (if env.hrZones.whichRange s.dateTime.date ≥ 0
            then env.hrZones.numZones (env.hrZones.whichRange s.dateTime.date) else 0)
          (env.hrZones.whichZone (env.hrZones.whichRange s.dateTime.date) p.hr)) : Nat) : ℚ) ∧
    (env.zones.whichRange s.dateTime.date < 0 →
      (computeMetrics env now s).time_in_zone = [] ∧
      (computeMetrics env now s).time_in_zone.sum = 0) ∧
    (env.hrZones.whichRange s.dateTime.date < 0 →
      (computeMetrics env now s).time_in_hr_zone = [] ∧
      (computeMetrics env now s).time_in_hr_zone.sum = 0) := by
  have hf := computeMetrics_stale_fields env now s r ((stale_iff env s).1 hstale) hload
  refine ⟨?_, ?_, ?_, ?_⟩
  · rw [hf.2.1, powerTimes_eq, foldl_addValue_sum, resetZones_sum, zero_add, resetZones_length]
    congr 2
    apply List.countP_congr
    intro p _
    simp only [validZone, Bool.and_eq_true, decide_eq_true_eq]
    by_cases h : env.zones.whichRange s.dateTime.date ≥ 0
    · simp only [h, if_true]
      constructor
      · rintro ⟨⟨⟨h1, h2⟩, h3⟩, h4⟩
        exact ⟨h1, h3, by omega⟩
      · rintro ⟨h1, h3, h4⟩
        exact ⟨⟨⟨h1, by omega⟩, h3⟩, by omega⟩
    · simp only [h, if_false]
      constructor
      · rintro ⟨⟨⟨_, h2⟩, _⟩, _⟩
        omega
      · rintro ⟨_, h3, h4⟩
        omega
  · rw [hf.2.2.1, hrTimes_eq, foldl_addValue_sum, resetZones_sum, zero_add, resetZones_length]
    congr 2
    apply List.countP_congr
    intro p _
    simp only [validZone, Bool.and_eq_true, decide_eq_true_eq]
    by_cases h : env.hrZones.whichRange s.dateTime.date ≥ 0
    · simp only [h, if_true]
      constructor
      · rintro ⟨⟨⟨h1, h2⟩, h3⟩, h4⟩
        exact ⟨h1, h3, by omega⟩
      · rintro ⟨h1, h3, h4⟩
        exact ⟨⟨⟨h1, by omega⟩, h3⟩, by omega⟩
    · simp only [h, if_false]
      constructor
      · rintro ⟨⟨⟨_, h2⟩, _⟩, _⟩
        omega
      · rintro ⟨_, h3, h4⟩
        omega
  · intro hneg
    have hnil : (computeMetrics env now s).time_in_zone = [] := by
      apply List.eq_nil_of_length_eq_zero
      rw [hf.2.1, powerTimes_length]
      have : ¬ (env.zones.whichRange s.dateTime.date ≥ 0) := by omega
      rw [if_neg this]
    exact ⟨hnil, by rw [hnil]; rfl⟩
  · intro hneg
    have hnil : (computeMetrics env now s).time_in_hr_zone = [] := by
      apply List.eq_nil_of_length_eq_zero
      rw [hf.2.2.1, hrTimes_length]
      have : ¬ (env.hrZones.whichRange s.dateTime.date ≥ 0) := by omega
      rw [if_neg this]
    exact ⟨hnil, by rw [hnil]; rfl⟩

theorem computeMetrics_sum_law_witness :
    (Stale Example.world Example.entry ∧
     (ride Example.world Example.entry).1 = some Example.fourSamples ∧
     Example.world.zones.whichRange Example.entry.dateTime.date = 0 ∧
     Example.world.hrZones.whichRange Example.entry.dateTime.date = 0 ∧
     Example.world.hrZones.numZones 0 = 3 ∧
     (computeMetrics Example.world Example.day200 Example.entry).time_in_zone.sum =
       Example.fourSamples.recIntSecs *
         ((Example.fourSamples.dataPoints.countP (fun p => decide (0 ≤ p.watts) &&
           validZone
             (if Example.world.zones.whichRange Example.entry.dateTime.date ≥ 0
               then Example.world.zones.numZones
                 (Example.world.zones.whichRange Example.entry.dateTime.date)
               else 0)
             (Example.world.zones.whichZone
               (Example.world.zones.whichRange Example.entry.dateTime.date) p.watts)) : Nat) : ℚ) ∧
     (computeMetrics Example.world Example.day200 Example.entry).time_in_hr_zone.sum =
       Example.fourSamples.recIntSecs *
         ((Example.fourSamples.dataPoints.countP (fun p => decide (0 ≤ p.hr) &&
           validZone
             (if Example.world.hrZones.whichRange Example.entry.dateTime.date ≥ 0
               then Example.world.hrZones.numZones
                 (Example.world.hrZones.whichRange Example.entry.dateTime.date)
               else 0)
             (Example.world.hrZones.whichZone
               (Example.world.hrZones.whichRange Example.entry.dateTime.date) p.hr)) : Nat) : ℚ) ∧
     (computeMetrics Example.world Example.day200 Example.entry).time_in_zone = [1, 1, 1] ∧
     (computeMetrics Example.world Example.day200 Example.entry).time_in_zone.sum = 3 ∧
     (computeMetrics Example.world Example.day200 Example.entry).time_in_hr_zone = [1, 1, 1] ∧
     (computeMetrics Example.world Example.day200 Example.entry).time_in_hr_zone.sum = 3) ∧
    (Stale Example.world Example.earlyEntry ∧
     (ride Example.world Example.earlyEntry).1 = some Example.fourSamples ∧
     Example.world.zones.whichRange Example.earlyEntry.dateTime.date < 0 ∧
     Example.world.hrZones.whichRange Example.earlyEntry.dateTime.date < 0 ∧
     ((computeMetrics Example.world Example.day200 Example.earlyEntry).time_in_zone = [] ∧
      (computeMetrics Example.world Example.day200 Example.earlyEntry).time_in_zone.sum = 0) ∧
     ((computeMetrics Example.world Example.day200 Example.earlyEntry).time_in_hr_zone = [] ∧
      (computeMetrics Example.world Example.day200 Example.earlyEntry).time_in_hr_zone.sum
        = 0)) :=
  ⟨⟨Or.inl rfl, by decide, by decide, by decide, by decide,
    (computeMetrics_sum_law Example.world Example.day200 Example.entry Example.fourSamples
      (Or.inl rfl) (by decide)).1,
    (computeMetrics_sum_law Example.world Example.day200 Example.entry Example.fourSamples
      (Or.inl rfl) (by decide)).2.1,
    by with_unfolding_all decide, by with_unfolding_all decide,
    by with_unfolding_all decide, by with_unfolding_all decide⟩,
   ⟨Or.inl rfl, by decide, by decide, by decide,
    (computeMetrics_sum_law Example.world Example.day200 Example.earlyEntry
      Example.fourSamples (Or.inl rfl) (by decide)).2.2.1 (by decide),
    (computeMetrics_sum_law Example.world Example.day200 Example.earlyEntry
      Example.fourSamples (Or.inl rfl) (by decide)).2.2.2 (by decide)⟩⟩

/-! ## Recomputation and idempotence -/

/-- Claim C5. Schedule modification forces recomputation: when the ride loads and the
power-zone schedule was modified after the time stored in `computeMetricsTime`
(the comparison `computeMetricsTime >= modificationTime` is false, which for a
set timestamp means that the schedule is newer than the cache),
`computeMetrics` does not take the early return.  It sets
`computeMetricsTime` to the current time, gives both vectors the zone counts of
the ranges now effective, and fills them by classifying every sample against
the schedules as they are now, starting from zero; `metrics` is replaced as
well.  The three cached values are those a freshly constructed entry for the
same ride and date computes. -/
theorem computeMetrics_recomputes_after_schedule_change (env : Env) (now : DateTimeVal)
    (s : RideItem) (r : RideFile)
    (hbump : QDateTime.ge s.computeMetricsTime env.zones.modificationTime = false)
    (hload : (ride env s).1 = some r) :
    cacheIsFresh env s = false ∧
    (computeMetrics env now s).computeMetricsTime = some now ∧
    (computeMetrics env now s).time_in_zone.length = (numZones env s).toNat ∧
    (computeMetrics env now s).time_in_hr_zone.length = (numHrZones env s).toNat ∧
    (computeMetrics env now s).time_in_zone = powerTimes env s.dateTime r ∧
    (computeMetrics env now s).time_in_hr_zone = hrTimes env s.dateTime r ∧
    (∀ (type : Int) (path fileName notes : String) (now0 : DateTimeVal),
      (env.openRideFile (path ++ "/" ++ fileName)).1 = some r →
      (computeMetrics env now s).time_in_zone =
        (computeMetrics env now0
          (RideItem.new env type path fileName s.dateTime notes)).time_in_zone ∧
      (computeMetrics env now s).time_in_hr_zone =
        (computeMetrics env now0
          (RideItem.new env type path fileName s.dateTime notes)).time_in_hr_zone ∧
      (computeMetrics env now s).metrics =
        (computeMetrics env now0
          (RideItem.new env type path fileName s.dateTime notes)).metrics) := by
  have hstale : cacheIsFresh env s = false := (stale_iff env s).1 (Or.inr hbump)
  have hf := computeMetrics_stale_fields env now s r hstale hload
  refine ⟨hstale, hf.1, ?_, ?_, hf.2.1, hf.2.2.1, ?_⟩
  · rw [hf.2.1, powerTimes_length]
    unfold numZones zoneRange
    by_cases h : env.zones.whichRange s.dateTime.date ≥ 0
    · simp only [h, if_true]
    · simp only [h, if_false, Int.toNat_zero]
  · rw [hf.2.2.1, hrTimes_length]
    unfold numHrZones hrZoneRange
    by_cases h : env.hrZones.whichRange s.dateTime.date ≥ 0
    · simp only [h, if_true]
    · simp only [h, if_false, Int.toNat_zero]
  · intro type path fileName notes now0 hopen
    have hstale0 : cacheIsFresh env (RideItem.new env type path fileName s.dateTime notes)
        = false := rfl
    have hload0 : (ride env (RideItem.new env type path fileName s.dateTime notes)).1
        = some r := by
      unfold ride
      simp only [RideItem.new]
      rcases hres : env.openRideFile (path ++ "/" ++ fileName) with ⟨o, errs⟩
      rw [hres] at hopen
      simp only at hopen
      subst hopen
      rfl
    have hf0 := computeMetrics_stale_fields env now0 _ r hstale0 hload0
    rw [hf.2.1, hf.2.2.1, hf.2.2.2.1, hf0.2.1, hf0.2.2.1, hf0.2.2.2.1]
    exact ⟨rfl, rfl, rfl⟩

theorem computeMetrics_recomputes_after_schedule_change_witness :
    Example.computedEntry.computeMetricsTime ≠ nilTime ∧
    QDateTime.ge Example.computedEntry.computeMetricsTime
      Example.worldPowerEdited.zones.modificationTime = false ∧
    (ride Example.worldPowerEdited Example.computedEntry).1 = some Example.fourSamples ∧
    Example.computedEntry.time_in_zone = [1, 1, 1] ∧
    (computeMetrics Example.worldPowerEdited Example.day400
      Example.computedEntry).computeMetricsTime = some Example.day400 ∧
    (computeMetrics Example.worldPowerEdited Example.day400 Example.computedEntry).time_in_zone
      = powerTimes Example.worldPowerEdited Example.computedEntry.dateTime
          Example.fourSamples ∧
    (computeMetrics Example.worldPowerEdited Example.day400 Example.computedEntry).time_in_zone
      = [0, 1, 2, 0] :=
  ⟨by decide, by decide, by decide, by with_unfolding_all decide,
   (computeMetrics_recomputes_after_schedule_change Example.worldPowerEdited Example.day400
     Example.computedEntry Example.fourSamples (by decide) (by decide)).2.1,
   (computeMetrics_recomputes_after_schedule_change Example.worldPowerEdited Example.day400
     Example.computedEntry Example.fourSamples (by decide) (by decide)).2.2.2.2.1,
   by with_unfolding_all decide⟩

/-- Claim C6. Idempotence: for every entry and every world, calling `computeMetrics`
twice in a row (at any two times, with the same schedules, loader and metric
registry) leaves `time_in_zone`, `time_in_hr_zone` and `metrics` after the
second call equal to their values after the first call, whether the second
call returns early or recomputes. -/
theorem computeMetrics_idempotent (env : Env) (now1 now2 : DateTimeVal) (s : RideItem) :
    (computeMetrics env now2 (computeMetrics env now1 s)).time_in_zone
      = (computeMetrics env now1 s).time_in_zone ∧
    (computeMetrics env now2 (computeMetrics env now1 s)).time_in_hr_zone
      = (computeMetrics env now1 s).time_in_hr_zone ∧
    (computeMetrics env now2 (computeMetrics env now1 s)).metrics
      = (computeMetrics env now1 s).metrics := by
  -- it is enough to look at the second call from the state the first one left
  have second : ∀ t : RideItem,
      (cacheIsFresh env t = false → ∀ r, (ride env t).1 = some r →
        t.time_in_zone = powerTimes env t.dateTime r ∧
        t.time_in_hr_zone = hrTimes env t.dateTime r ∧
        t.metrics = env.rideMetrics r env.zones env.hrZones (allMetrics env)) →
      (computeMetrics env now2 t).time_in_zone = t.time_in_zone ∧
      (computeMetrics env now2 t).time_in_hr_zone = t.time_in_hr_zone ∧
      (computeMetrics env now2 t).metrics = t.metrics := by
    intro t ht
    by_cases hfresh : cacheIsFresh env t = true
    · have : computeMetrics env now2 t = t := by
        unfold computeMetrics
        rw [if_pos hfresh]
      rw [this]
      exact ⟨rfl, rfl, rfl⟩
    · have hstale : cacheIsFresh env t = false := by simpa using hfresh
      rcases hr : (ride env t).1 with _ | r
      · have hfields := computeMetrics_loadFails_fields env now2 t (ride_eq_none env t hr)
        exact ⟨hfields.2.1, hfields.2.2.1, hfields.2.2.2⟩
      · have hf := computeMetrics_stale_fields env now2 t r hstale hr
        obtain ⟨h1, h2, h3⟩ := ht hstale r hr
        rw [hf.2.1, hf.2.2.1, hf.2.2.2.1, ← h1, ← h2, ← h3]
        exact ⟨rfl, rfl, rfl⟩
  apply second
  intro hstale1 r hr1
  -- the first call: early return, failed load, or recomputation
  by_cases hfresh : cacheIsFresh env s = true
  · have hs : computeMetrics env now1 s = s := by
      unfold computeMetrics
      rw [if_pos hfresh]
    rw [hs] at hstale1
    rw [hstale1] at hfresh
    exact absurd hfresh (by simp)
  · have hstale : cacheIsFresh env s = false := by simpa using hfresh
    rcases hr : (ride env s).1 with _ | r0
    · have hstill := ride_after_computeMetrics_fails env now1 s (ride_eq_none env s hr)
      rw [hstill] at hr1
      exact absurd hr1 (by simp)
    · have hf := computeMetrics_stale_fields env now1 s r0 hstale hr
      have hsame : r = r0 := by
        have h := ride_loaded env (computeMetrics env now1 s) r0 hf.2.2.2.2.1
        rw [h] at hr1
        simpa using hr1.symm
      subst hsame
      rw [hf.2.1, hf.2.2.1, hf.2.2.2.1, hf.2.2.2.2.2]
      exact ⟨rfl, rfl, rfl⟩

/-! ## The staleness test and the heart-rate schedule -/

/-- Claim C10. One-sided staleness test: two situations that agree on
`computeMetricsTime` and on the modification time of the power-zone schedule
take the same decision at the head of `computeMetrics`, whatever their
heart-rate schedules (contents and modification times) are.  When the
timestamp is set and at least the power schedule's modification time, both
calls return the entry unchanged, so `time_in_hr_zone` is not recomputed even
if the heart-rate schedule was modified later; otherwise both calls go on to
load the ride and, when it loads, stamp the current time and rebuild the
heart-rate accumulator. -/
theorem computeMetrics_staleness_ignores_hrZones (env env2 : Env) (s s2 : RideItem)
    (now : DateTimeVal)
    (htime : s.computeMetricsTime = s2.computeMetricsTime)
    (hmod : env.zones.modificationTime = env2.zones.modificationTime) :
    cacheIsFresh env s = cacheIsFresh env2 s2 ∧
    (cacheIsFresh env s = true →
      computeMetrics env now s = s ∧ computeMetrics env2 now s2 = s2) ∧
    (cacheIsFresh env s = false →
      (∀ r, (ride env s).1 = some r →
        (computeMetrics env now s).computeMetricsTime = some now ∧
        (computeMetrics env now s).time_in_hr_zone = hrTimes env s.dateTime r) ∧
      (∀ r, (ride env2 s2).1 = some r →
        (computeMetrics env2 now s2).computeMetricsTime = some now ∧
        (computeMetrics env2 now s2).time_in_hr_zone = hrTimes env2 s2.dateTime r)) := by
  have hdec : cacheIsFresh env s = cacheIsFresh env2 s2 := by
    unfold cacheIsFresh
    rw [htime, hmod]
  refine ⟨hdec, ?_, ?_⟩
  · intro hfresh
    have hfresh2 : cacheIsFresh env2 s2 = true := hdec ▸ hfresh
    constructor
    · unfold computeMetrics
      rw [if_pos hfresh]
    · unfold computeMetrics
      rw [if_pos hfresh2]
  · intro hstale
    have hstale2 : cacheIsFresh env2 s2 = false := hdec ▸ hstale
    constructor
    · intro r hr
      have hf := computeMetrics_stale_fields env now s r hstale hr
      exact ⟨hf.1, hf.2.2.1⟩
    · intro r hr
      have hf := computeMetrics_stale_fields env2 now s2 r hstale2 hr
      exact ⟨hf.1, hf.2.2.1⟩

theorem computeMetrics_staleness_ignores_hrZones_witness :
    Example.computedEntry.computeMetricsTime = Example.unloadedEntry.computeMetricsTime ∧
    Example.world.zones.modificationTime = Example.worldHrEdited.zones.modificationTime ∧
    QDateTime.ge Example.unloadedEntry.computeMetricsTime
      Example.worldHrEdited.hrZones.modificationTime = false ∧
    cacheIsFresh Example.world Example.computedEntry
      = cacheIsFresh Example.worldHrEdited Example.unloadedEntry ∧
    computeMetrics Example.worldHrEdited Example.day400 Example.unloadedEntry
      = Example.unloadedEntry :=
  ⟨by decide, rfl, by decide,
   (computeMetrics_staleness_ignores_hrZones Example.world Example.worldHrEdited
     Example.computedEntry Example.unloadedEntry Example.day400 (by decide) rfl).1,
   ((computeMetrics_staleness_ignores_hrZones Example.world Example.worldHrEdited
     Example.computedEntry Example.unloadedEntry Example.day400 (by decide) rfl).2.1
       (by decide)).2⟩

/-! ## Where the code leaves the intended behaviour -/

/-- Claim C8. For an entry whose file cannot be read, `setStartTime` has already stored
the new date-time and rewritten the text columns when it dereferences the null
result of `ride()`: the call ends in a null dereference and `dateTime` is no
longer the value it had before the call. -/
theorem setStartTime_load_failure_changes_dateTime :
    ∃ s2, setStartTime Example.world Example.brokenEntry Example.day150
        = Outcome.nullDeref s2 ∧
      s2.dateTime = Example.day150 ∧
      s2.dateTime ≠ Example.brokenEntry.dateTime :=
  ⟨_, rfl, rfl, by decide⟩

/-- Claim C9. After `computeMetrics` on day 200 the cache of the entry has three
entries.  `setStartTime` then moves the entry to day 150, where the range with
five zones is effective; the cache is not rebuilt because the schedule was not
modified, so `numZones()` is 5 while `time_in_zone` still has 3 entries, and
`timeInZone(4)` passes the assertion and indexes outside the vector. -/
theorem timeInZone_after_setStartTime_out_of_range :
    setStartTime Example.world Example.computedEntry Example.day150
        = Outcome.ok () Example.movedEntry ∧
      numZones Example.world Example.movedEntry = 5 ∧
      Example.movedEntry.time_in_zone.length = 3 ∧
      timeInZone Example.world Example.day400 Example.movedEntry 4
        = Outcome.outOfRange Example.movedEntry := by
  refine ⟨?_, ?_, ?_, ?_⟩ <;> with_unfolding_all decide

end RideItem

/-! ## The threshold schedules obey the classifier contract -/

theorem ZoneRange.classify_lt (rg : ZoneRange) (v : ℚ) :
    rg.classify v < ((rg.thresholds.length + 1 : Nat) : Int) := by
  unfold ZoneRange.classify
  split
  · omega
  · have h : List.countP (fun t => decide (t ≤ v)) rg.thresholds ≤ rg.thresholds.length :=
      List.countP_le_length _
    omega

theorem classifyIn_lt_zoneCount (ranges : List ZoneRange) (r : Int) (v : ℚ) (hr : 0 ≤ r) :
    classifyIn ranges r v < zoneCount ranges r := by
  unfold classifyIn zoneCount
  rw [if_pos hr, if_pos hr]
  rcases ranges[r.toNat]? with _ | rg
  · simp
  · exact ZoneRange.classify_lt rg v

theorem Zones.ofRanges_power_wellFormed (ranges : List ZoneRange) (m : QDateTime) :
    (Zones.ofRanges ranges m).WellFormed :=
  fun r v hr => classifyIn_lt_zoneCount ranges r v hr

theorem HrZones.ofRanges_hr_wellFormed (ranges : List ZoneRange) (m : QDateTime) :
    (HrZones.ofRanges ranges m).WellFormed :=
  fun r v hr => classifyIn_lt_zoneCount ranges r v hr

end GoldenCheetah
